import Mathlib

set_option autoImplicit false

/-!
Shallow embedding of the `fng-socket` dispatch helper.

Source files embedded:
  * `src/types/index.ts` — the `TransportAction` / `TransportSubAction`
    enumerations, the `Transport` envelope, the `MessageHandlerConfig`
    registry shape.
  * `src/util.ts/string.util.ts` — `camelCase`, `createMethodName`.
  * `src/util.ts/authentication.util.ts` — `validateToken`.
  * `src/message-handler/index.ts` — `createMesssageHandler` /
    `handleMessage`.

Modelling conventions:
  * JavaScript `undefined`-able values become `Option`.
  * Thrown errors become `Except` with an explicit error taxonomy; the
    source's error message strings are recovered by `message` functions.
  * The external `jwt.verify` routine is a parameter
    `verify : String → String → Option (ValidToken U)` (`none` models a
    throw inside `jwt.verify`, caught and re-thrown as "Invalid Token").
  * Handlers (`actionMethod`) are ordinary Lean functions; "the handler is
    invoked with argument u" is stated as the dispatch result being
    `.ok (actionMethod ws payload u)`, and "the handler / validator is
    never invoked" as the result being an error that holds for every
    handler / verifier.
-/

/-- Enum `TransportAction` from `src/types/index.ts` (values are their own
spelling as strings, see `TransportAction.str`). -/
inductive TransportAction where
  | AUTH
  | ERROR
  | GROUP
  | GROUPS
  | MESSAGE
  | NOTIFICATION
  | ROOM
  | UNKNOWN
  | USER
  | ZONE
  deriving DecidableEq, Repr, Fintype

/-- The string value each `TransportAction` member is declared equal to. -/
def TransportAction.str : TransportAction → String
  | .AUTH => "AUTH"
  | .ERROR => "ERROR"
  | .GROUP => "GROUP"
  | .GROUPS => "GROUPS"
  | .MESSAGE => "MESSAGE"
  | .NOTIFICATION => "NOTIFICATION"
  | .ROOM => "ROOM"
  | .UNKNOWN => "UNKNOWN"
  | .USER => "USER"
  | .ZONE => "ZONE"

/-- Enum `TransportSubAction` from `src/types/index.ts`. -/
inductive TransportSubAction where
  | ACTION
  | CODE
  | CREATE
  | DELETE
  | DESTROY
  | END
  | ERROR
  | GET
  | INVITE
  | JOIN
  | LEAVE
  | LOGIN
  | LOGOUT
  | MESSAGE
  | SEND
  | SIGNUP
  | START
  | STORE
  | TURN
  deriving DecidableEq, Repr, Fintype

/-- The string value each `TransportSubAction` member is declared equal to. -/
def TransportSubAction.str : TransportSubAction → String
  | .ACTION => "ACTION"
  | .CODE => "CODE"
  | .CREATE => "CREATE"
  | .DELETE => "DELETE"
  | .DESTROY => "DESTROY"
  | .END => "END"
  | .ERROR => "ERROR"
  | .GET => "GET"
  | .INVITE => "INVITE"
  | .JOIN => "JOIN"
  | .LEAVE => "LEAVE"
  | .LOGIN => "LOGIN"
  | .LOGOUT => "LOGOUT"
  | .MESSAGE => "MESSAGE"
  | .SEND => "SEND"
  | .SIGNUP => "SIGNUP"
  | .START => "START"
  | .STORE => "STORE"
  | .TURN => "TURN"

/-- One word of `camelCase` (`src/util.ts/string.util.ts`): the word at
index 0 gets `word[0].toLowerCase() + word.toLowerCase().slice(1)`.
All call sites pass non-empty words ("handle" and enum strings); on the
empty string the source would throw a TypeError, modelled as `""`. -/
def camelWordFirst (w : String) : String :=
  match w.data with
  | [] => ""
  | c :: cs => String.mk (c.toLower :: cs.map Char.toLower)

/-- One word of `camelCase` at index > 0:
`word[0].toUpperCase() + word.toLowerCase().slice(1)`. -/
def camelWordRest (w : String) : String :=
  match w.data with
  | [] => ""
  | c :: cs => String.mk (c.toUpper :: cs.map Char.toLower)

/-- `camelCase` from `src/util.ts/string.util.ts`: lower-case the first
word's head, upper-case each later word's head, lower-case every tail,
join with `""`. -/
def camelCase (input : List String) : String :=
  match input with
  | [] => ""
  | w :: ws => camelWordFirst w ++ String.join (ws.map camelWordRest)

/-- `createMethodName` from `src/util.ts/string.util.ts`: builds
`["handle", action]`, pushes `subAction` when present (every enum value is
a non-empty string, hence truthy), and camel-cases. -/
def createMethodName (action : TransportAction)
    (subAction : Option TransportSubAction) : String :=
  camelCase (["handle", action.str] ++
    (match subAction with
     | some sa => [sa.str]
     | none => []))

example : createMethodName .MESSAGE (some .SEND) = "handleMessageSend" := by
  decide

example : createMethodName .AUTH none = "handleAuth" := by decide

example : createMethodName .ZONE (some .JOIN) = "handleZoneJoin" := by decide

/-- Errors thrown by `validateToken`
(`src/util.ts/authentication.util.ts`). `invalidAuthToken` corresponds to
the `typeof bearer !== "string"` guard, which is unreachable in this typed
embedding; it is kept for the error taxonomy. -/
inductive TokenError where
  | invalidAuthToken
  | noSecret
  | invalidToken
  deriving DecidableEq, Repr

/-- The exact message strings thrown by `validateToken`. -/
def TokenError.message : TokenError → String
  | .invalidAuthToken => "Invalid auth token"
  | .noSecret => "No JWT secret found. Please set JWT_SECRET in .env file."
  | .invalidToken => "Invalid Token. Please log in again."

/-- Errors thrown by `handleMessage` (`src/message-handler/index.ts`),
plus the propagated `validateToken` errors. -/
inductive DispatchError where
  | invalidAction (key : String)
  | notLoggedIn
  | tokenError (e : TokenError)
  deriving DecidableEq, Repr

/-- The exact message strings thrown by `handleMessage`. -/
def DispatchError.message : DispatchError → String
  | .invalidAction key => "Invalid Action " ++ key
  | .notLoggedIn => "Not Logged in"
  | .tokenError e => e.message

/-- `ValidTokenInterface` from `src/types/index.ts`: the decoded JWT
claims object, carrying an optional `user` claim (the other standard JWT
claim fields play no role in the dispatch logic). `U` is the user type. -/
structure ValidToken (U : Type) where
  user : Option U
  deriving DecidableEq, Repr

/-- The process environment seen by `validateToken`:
`process.env.JWT_SECRET`, `none` when the variable is unset. -/
structure Env where
  jwtSecret : Option String
  deriving DecidableEq, Repr

/-- Accumulator loop of `jsSplitOnSpace`: cut the character list at every
space, keeping empty segments, exactly as JavaScript
`String.prototype.split(" ")` does. -/
def jsSplitOnSpaceAux : List Char → List Char → List String
  | [], acc => [String.mk acc.reverse]
  | c :: cs, acc =>
    if c = ' ' then String.mk acc.reverse :: jsSplitOnSpaceAux cs []
    else jsSplitOnSpaceAux cs (c :: acc)

/-- JavaScript `s.split(" ")`: the list of space-separated segments of
`s`, empty segments included (`"" → [""]`, `"a  b" → ["a", "", "b"]`). -/
def jsSplitOnSpace (s : String) : List String :=
  jsSplitOnSpaceAux s.data []

example : jsSplitOnSpace "Bearer tok" = ["Bearer", "tok"] := by decide

example : jsSplitOnSpace "" = [""] := by decide

example : jsSplitOnSpace "a  b" = ["a", "", "b"] := by decide

example : jsSplitOnSpace "a " = ["a", ""] := by decide

/-- The token string actually passed to `jwt.verify`:
`const token = bearer.split(" ")[1] || bearer;`. Element 1 of the split is
`undefined` (no space in `bearer`) or `""` (empty second segment) exactly
when JavaScript `||` falls back to the whole `bearer`. -/
def extractToken (bearer : String) : String :=
  match (jsSplitOnSpace bearer)[1]? with
  | some t => if t.isEmpty then bearer else t
  | none => bearer

/-- `validateToken` from `src/util.ts/authentication.util.ts`. The
`typeof` guard cannot fire here (the argument is a string by type). The
secret is falsy when unset or empty. `verify` stands for the external
`jwt.verify`; `none` models a throw inside it, caught and replaced by the
"Invalid Token" error. -/
def validateToken {U : Type} (env : Env)
    (verify : String → String → Option (ValidToken U))
    (bearer : String) : Except TokenError (ValidToken U) :=
  let token := extractToken bearer
  match env.jwtSecret with
  | none => .error .noSecret
  | some secret =>
    if secret.isEmpty then .error .noSecret
    else
      match verify token secret with
      | some claims => .ok claims
      | none => .error .invalidToken

/-- The `Transport` envelope from `src/types/index.ts` (the `error` field,
unused by dispatch, is abstracted to a string). `P` is the payload type. -/
structure Transport (P : Type) where
  auth : Option String := none
  action : TransportAction
  subAction : Option TransportSubAction := none
  message : Option String := none
  payload : Option P := none
  error : Option String := none

/-- One registry entry of `MessageHandlerConfig`
(`src/types/index.ts`): the `noAuth` flag and the handler. `noAuth` is
declared `boolean`, but `handleMessage` only ever compares it with
`=== false`, and the spec discusses entries that leave it unset, so it is
modelled as `Option Bool` with `none` for `undefined`. The handler takes
the connection, the optional payload and the optional user, returning `R`. -/
structure ConfigEntry (WS P U R : Type) where
  noAuth : Option Bool := none
  actionMethod : WS → Option P → Option U → R

/-- `MessageHandlerConfig`: a string-keyed lookup of registry entries
(`config[methodName]` is `undefined` for an absent key). -/
def MessageHandlerConfig (WS P U R : Type) : Type :=
  String → Option (ConfigEntry WS P U R)

/-- `handleMessage`, the function returned by `createMesssageHandler`
(`src/message-handler/index.ts`): build the method name, look it up,
throw `Invalid Action <key>` when absent; when the action is not `AUTH`
and the entry's `noAuth` is strictly equal to `false`, throw
`Not Logged in` on a falsy `auth` (absent or empty) and otherwise set
`user` from `validateToken(auth).user`; finally call the handler. -/
def handleMessage {WS P U R : Type} (config : MessageHandlerConfig WS P U R)
    (env : Env) (verify : String → String → Option (ValidToken U))
    (ws : WS) (msg : Transport P) : Except DispatchError R :=
  let methodName := createMethodName msg.action msg.subAction
  match config methodName with
  | none => .error (.invalidAction methodName)
  | some actionObj =>
    if msg.action ≠ TransportAction.AUTH ∧ actionObj.noAuth = some false then
      match msg.auth with
      | none => .error .notLoggedIn
      | some a =>
        if a.isEmpty then .error .notLoggedIn
        else
          match validateToken env verify a with
          | .error e => .error (.tokenError e)
          | .ok res => .ok (actionObj.actionMethod ws msg.payload res.user)
    else
      .ok (actionObj.actionMethod ws msg.payload none)

/-- Verification applied to exactly the given token string, with no
segment stripping: the body of `validateToken` after
`const token = ...`. Used to state which token `validateToken` verifies. -/
def validateTokenNoStrip {U : Type} (env : Env)
    (verify : String → String → Option (ValidToken U))
    (token : String) : Except TokenError (ValidToken U) :=
  match env.jwtSecret with
  | none => .error .noSecret
  | some secret =>
    if secret.isEmpty then .error .noSecret
    else
      match verify token secret with
      | some claims => .ok claims
      | none => .error .invalidToken

/-!
Concrete fixtures for witnesses and counterexamples. The handler echoes
the user and payload it was invoked with, making the invocation (and its
arguments) observable in the dispatch result. User type `String`, payload
type `Nat`, connection type `Unit`.
-/

/-- Handler that echoes its user and payload arguments. -/
def echoHandler : Unit → Option Nat → Option String → Option String × Option Nat :=
  fun _ p u => (u, p)

/-- Registry entry leaving `noAuth` unset (`undefined`). -/
def entryUnset : ConfigEntry Unit Nat String (Option String × Option Nat) :=
  { noAuth := none, actionMethod := echoHandler }

/-- Registry entry with `noAuth` strictly `false`. -/
def entryFalse : ConfigEntry Unit Nat String (Option String × Option Nat) :=
  { noAuth := some false, actionMethod := echoHandler }

/-- Registry entry with `noAuth` strictly `true`. -/
def entryTrue : ConfigEntry Unit Nat String (Option String × Option Nat) :=
  { noAuth := some true, actionMethod := echoHandler }

/-- Config with one entry, at key `handleMessage`, flag unset. -/
def cfgUnset : MessageHandlerConfig Unit Nat String (Option String × Option Nat) :=
  fun key => if key = "handleMessage" then some entryUnset else none

/-- Config with one entry, at key `handleMessage`, flag `false`. -/
def cfgFalse : MessageHandlerConfig Unit Nat String (Option String × Option Nat) :=
  fun key => if key = "handleMessage" then some entryFalse else none

/-- Config with one entry, at key `handleMessage`, flag `true`. -/
def cfgTrue : MessageHandlerConfig Unit Nat String (Option String × Option Nat) :=
  fun key => if key = "handleMessage" then some entryTrue else none

/-- Config with one entry, at key `handleAuth`, flag `false`. -/
def cfgAuth : MessageHandlerConfig Unit Nat String (Option String × Option Nat) :=
  fun key => if key = "handleAuth" then some entryFalse else none

/-- The empty config. -/
def cfgEmpty : MessageHandlerConfig Unit Nat String (Option String × Option Nat) :=
  fun _ => none

/-- Envelope: action `MESSAGE`, payload 7, no `auth` field. -/
def msgNoAuth : Transport Nat := { action := .MESSAGE, payload := some 7 }

/-- Envelope: action `MESSAGE`, payload 7, `auth` carrying a token. -/
def msgWithAuth : Transport Nat :=
  { action := .MESSAGE, payload := some 7, auth := some "tok" }

/-- Envelope: action `AUTH`, payload 7, no `auth` field. -/
def msgAuthAction : Transport Nat := { action := .AUTH, payload := some 7 }

/-- Environment with no `JWT_SECRET`. -/
def envNone : Env := { jwtSecret := none }

/-- Environment with `JWT_SECRET` set. -/
def envSecret : Env := { jwtSecret := some "s3cret" }

/-- Verifier accepting exactly token `tok` under secret `s3cret`,
decoding a claims object whose user is `alice`. -/
def verifyTok : String → String → Option (ValidToken String) :=
  fun t s =>
    if t = "tok" ∧ s = "s3cret" then some { user := some "alice" } else none

deriving instance DecidableEq for Except

/-- Written from the spec's words, independently of `camelCase`: a word
with its "first letter upper-cased and the remaining letters lower-cased"
(PascalCase of one word). -/
def specCapitalize (w : String) : String :=
  String.mk ((w.data.take 1).map Char.toUpper) ++
    String.mk ((w.data.drop 1).map Char.toLower)

/-- Proof-side decoder: reads an action back off a key's character list
after the `handle` prefix (the `Groups` pattern is tried before `Group`;
no capitalized sub-action starts with a lower-case letter, so the two
never overlap). Returns the action and the remaining characters. -/
def decodeAction : List Char → Option (TransportAction × List Char)
  | 'A' :: 'u' :: 't' :: 'h' :: rest => some (.AUTH, rest)
  | 'E' :: 'r' :: 'r' :: 'o' :: 'r' :: rest => some (.ERROR, rest)
  | 'G' :: 'r' :: 'o' :: 'u' :: 'p' :: 's' :: rest => some (.GROUPS, rest)
  | 'G' :: 'r' :: 'o' :: 'u' :: 'p' :: rest => some (.GROUP, rest)
  | 'M' :: 'e' :: 's' :: 's' :: 'a' :: 'g' :: 'e' ::
      rest => some (.MESSAGE, rest)
  | 'N' :: 'o' :: 't' :: 'i' :: 'f' :: 'i' :: 'c' :: 'a' :: 't' :: 'i' ::
      'o' :: 'n' :: rest =>
    some (.NOTIFICATION, rest)
  | 'R' :: 'o' :: 'o' :: 'm' :: rest => some (.ROOM, rest)
  | 'U' :: 'n' :: 'k' :: 'n' :: 'o' :: 'w' :: 'n' ::
      rest => some (.UNKNOWN, rest)
  | 'U' :: 's' :: 'e' :: 'r' :: rest => some (.USER, rest)
  | 'Z' :: 'o' :: 'n' :: 'e' :: rest => some (.ZONE, rest)
  | _ => none

/-- Proof-side decoder: reads the optional capitalized sub-action off the
characters remaining after the action part. -/
def decodeSub : List Char → Option (Option TransportSubAction)
  | [] => some none
  | 'A' :: 'c' :: 't' :: 'i' :: 'o' :: 'n' :: [] => some (some .ACTION)
  | 'C' :: 'o' :: 'd' :: 'e' :: [] => some (some .CODE)
  | 'C' :: 'r' :: 'e' :: 'a' :: 't' :: 'e' :: [] => some (some .CREATE)
  | 'D' :: 'e' :: 'l' :: 'e' :: 't' :: 'e' :: [] => some (some .DELETE)
  | 'D' :: 'e' :: 's' :: 't' :: 'r' :: 'o' :: 'y' ::
      [] => some (some .DESTROY)
  | 'E' :: 'n' :: 'd' :: [] => some (some .END)
  | 'E' :: 'r' :: 'r' :: 'o' :: 'r' :: [] => some (some .ERROR)
  | 'G' :: 'e' :: 't' :: [] => some (some .GET)
  | 'I' :: 'n' :: 'v' :: 'i' :: 't' :: 'e' :: [] => some (some .INVITE)
  | 'J' :: 'o' :: 'i' :: 'n' :: [] => some (some .JOIN)
  | 'L' :: 'e' :: 'a' :: 'v' :: 'e' :: [] => some (some .LEAVE)
  | 'L' :: 'o' :: 'g' :: 'i' :: 'n' :: [] => some (some .LOGIN)
  | 'L' :: 'o' :: 'g' :: 'o' :: 'u' :: 't' :: [] => some (some .LOGOUT)
  | 'M' :: 'e' :: 's' :: 's' :: 'a' :: 'g' :: 'e' ::
      [] => some (some .MESSAGE)
  | 'S' :: 'e' :: 'n' :: 'd' :: [] => some (some .SEND)
  | 'S' :: 'i' :: 'g' :: 'n' :: 'u' :: 'p' :: [] => some (some .SIGNUP)
  | 'S' :: 't' :: 'a' :: 'r' :: 't' :: [] => some (some .START)
  | 'S' :: 't' :: 'o' :: 'r' :: 'e' :: [] => some (some .STORE)
  | 'T' :: 'u' :: 'r' :: 'n' :: [] => some (some .TURN)
  | _ => none

/-- Proof-side decoder for whole keys: strip `handle`, decode the action,
then the optional sub-action. A left inverse of `createMethodName` over
the declared enumerations (`decode_createMethodName`), which makes the
key construction collision-free. -/
def decodeKey (s : String) :
    Option (TransportAction × Option TransportSubAction) :=
  match s.data with
  | 'h' :: 'a' :: 'n' :: 'd' :: 'l' :: 'e' :: rest =>
    match decodeAction rest with
    | some (a, rest₁) =>
      match decodeSub rest₁ with
      | some sa => some (a, sa)
      | none => none
    | none => none
  | _ => none

/- ================= Theorems ================= -/

/-- Helper: `decodeKey` inverts `createMethodName` on every action /
optional-sub-action pair of the declared enumerations. -/
theorem decode_createMethodName :
    ∀ (a : TransportAction) (sa : Option TransportSubAction),
      decodeKey (createMethodName a sa) = some (a, sa) := by
  decide

/-- C3: for every action and optional sub-action from the declared
enumerations, `createMethodName` returns `"handle"` followed by the
action with its first letter upper-cased and the rest lower-cased,
followed (when present) by the sub-action capitalized the same way. -/
theorem createMethodName_matches_spec :
    ∀ (a : TransportAction) (sa : Option TransportSubAction),
      createMethodName a sa =
        "handle" ++ specCapitalize a.str ++
          (match sa with
           | some s => specCapitalize s.str
           | none => "") := by
  decide

/-- C4: `createMethodName` is injective over the declared enumerations:
equal key strings force equal action / optional-sub-action pairs. -/
theorem createMethodName_injective (a₁ a₂ : TransportAction)
    (s₁ s₂ : Option TransportSubAction)
    (h : createMethodName a₁ s₁ = createMethodName a₂ s₂) :
    a₁ = a₂ ∧ s₁ = s₂ := by
  have h₁ := decode_createMethodName a₁ s₁
  rw [h, decode_createMethodName a₂ s₂] at h₁
  have hp : (a₂, s₂) = (a₁, s₁) := Option.some.inj h₁
  exact ⟨(congrArg Prod.fst hp).symm, (congrArg Prod.snd hp).symm⟩

/-- Witness for C4 at a concrete pair. -/
theorem createMethodName_injective_witness :
    TransportAction.MESSAGE = TransportAction.MESSAGE ∧
      (some TransportSubAction.SEND : Option TransportSubAction) =
        some TransportSubAction.SEND :=
  createMethodName_injective TransportAction.MESSAGE TransportAction.MESSAGE
    (some TransportSubAction.SEND) (some TransportSubAction.SEND) rfl

/-- C5: dispatch of an envelope whose computed key has no entry in the
config rejects with `Invalid Action <key>` naming that exact key, for
every environment, verifier and `auth` value (so before any
authentication check, token validation or handler could run). -/
theorem handleMessage_unknown_key_error {WS P U R : Type}
    (config : MessageHandlerConfig WS P U R) (env : Env)
    (verify : String → String → Option (ValidToken U)) (ws : WS)
    (msg : Transport P)
    (h : config (createMethodName msg.action msg.subAction) = none) :
    handleMessage config env verify ws msg =
        .error (.invalidAction (createMethodName msg.action msg.subAction)) ∧
      (DispatchError.invalidAction
          (createMethodName msg.action msg.subAction)).message =
        "Invalid Action " ++ createMethodName msg.action msg.subAction := by
  exact ⟨by simp [handleMessage, h], rfl⟩

/-- Witness for C5: the empty config rejects a `MESSAGE` envelope. -/
theorem handleMessage_unknown_key_error_witness :
    handleMessage cfgEmpty envSecret verifyTok () msgNoAuth =
        Except.error (DispatchError.invalidAction "handleMessage") ∧
      (DispatchError.invalidAction "handleMessage").message =
        "Invalid Action handleMessage" := by
  exact handleMessage_unknown_key_error cfgEmpty envSecret verifyTok ()
    msgNoAuth rfl

/-- C6: an envelope with action `AUTH` that matches a registry entry is
dispatched to the handler with an undefined user, for every flag value,
every `auth` value (including absent) and every verifier — no `auth`
field is required and the result never depends on token validation. -/
theorem handleMessage_auth_action_skips_gate {WS P U R : Type}
    (config : MessageHandlerConfig WS P U R) (env : Env)
    (verify : String → String → Option (ValidToken U)) (ws : WS)
    (msg : Transport P) (entry : ConfigEntry WS P U R)
    (hlook : config (createMethodName msg.action msg.subAction) = some entry)
    (hact : msg.action = TransportAction.AUTH) :
    handleMessage config env verify ws msg =
      .ok (entry.actionMethod ws msg.payload none) := by
  rw [hact] at hlook
  simp [handleMessage, hact, hlook]

/-- Witness for C6: an `AUTH` envelope with no `auth` field, against an
entry whose flag is `false` and an environment with no secret, still
reaches the handler with an undefined user. -/
theorem handleMessage_auth_action_skips_gate_witness :
    handleMessage cfgAuth envNone verifyTok () msgAuthAction =
      Except.ok ((none : Option String), some 7) := by
  exact handleMessage_auth_action_skips_gate cfgAuth envNone verifyTok ()
    msgAuthAction entryFalse rfl rfl

/-- C8: with no JWT secret configured in the environment, every
`validateToken` call rejects with the configuration error, whatever the
token string and the verifier — the secret-presence check precedes
signature verification. -/
theorem validateToken_missing_secret {U : Type} (env : Env)
    (verify : String → String → Option (ValidToken U)) (bearer : String)
    (h : env.jwtSecret = none) :
    validateToken env verify bearer = .error .noSecret ∧
      TokenError.noSecret.message =
        "No JWT secret found. Please set JWT_SECRET in .env file." := by
  exact ⟨by simp [validateToken, h], rfl⟩

/-- Witness for C8 at a concrete token. -/
theorem validateToken_missing_secret_witness :
    validateToken envNone verifyTok "tok" = Except.error TokenError.noSecret ∧
      TokenError.noSecret.message =
        "No JWT secret found. Please set JWT_SECRET in .env file." := by
  exact validateToken_missing_secret envNone verifyTok "tok" rfl

/-- C1 (amended): for a dispatched envelope whose action is not `AUTH`
and whose matched entry's flag is exactly the literal `false`, a missing
or empty `auth` field rejects with the `Not Logged in` error; the error
result holds for every handler, so the handler observably never runs. -/
theorem handleMessage_false_flag_requires_auth {WS P U R : Type}
    (config : MessageHandlerConfig WS P U R) (env : Env)
    (verify : String → String → Option (ValidToken U)) (ws : WS)
    (msg : Transport P) (entry : ConfigEntry WS P U R)
    (hlook : config (createMethodName msg.action msg.subAction) = some entry)
    (hact : msg.action ≠ TransportAction.AUTH)
    (hflag : entry.noAuth = some false)
    (hauth : msg.auth = none ∨ msg.auth = some "") :
    handleMessage config env verify ws msg = .error .notLoggedIn ∧
      DispatchError.notLoggedIn.message = "Not Logged in" := by
  refine ⟨?_, rfl⟩
  have he : "".isEmpty = true := rfl
  rcases hauth with h | h <;>
    simp [handleMessage, hlook, hact, hflag, h, he]

/-- Witness for the amended C1. -/
theorem handleMessage_false_flag_requires_auth_witness :
    handleMessage cfgFalse envSecret verifyTok () msgNoAuth =
        Except.error DispatchError.notLoggedIn ∧
      DispatchError.notLoggedIn.message = "Not Logged in" := by
  exact handleMessage_false_flag_requires_auth cfgFalse envSecret verifyTok ()
    msgNoAuth entryFalse rfl (by decide) rfl (Or.inl rfl)

/-- Counterexample to C1 as stated: an entry whose flag is left unset
(`undefined`, a value other than the literal `false`), action `MESSAGE`,
no `auth` field — dispatch invokes the handler (with an undefined user)
instead of rejecting with `Not Logged in`. -/
theorem noAuth_unset_gate_counterexample :
    handleMessage cfgUnset envSecret verifyTok () msgNoAuth =
        Except.ok ((none : Option String), some 7) ∧
      handleMessage cfgUnset envSecret verifyTok () msgNoAuth ≠
        Except.error DispatchError.notLoggedIn := by
  exact ⟨rfl, by decide⟩

/-- C2 (amended): a matched entry whose flag is any value other than the
literal `false` skips token validation (the result is the same for every
verifier, which is quantified) and invokes the handler with an undefined
user, whether or not the envelope carries an `auth` field. -/
theorem handleMessage_nonfalse_flag_skips_auth {WS P U R : Type}
    (config : MessageHandlerConfig WS P U R) (env : Env)
    (verify : String → String → Option (ValidToken U)) (ws : WS)
    (msg : Transport P) (entry : ConfigEntry WS P U R)
    (hlook : config (createMethodName msg.action msg.subAction) = some entry)
    (hflag : entry.noAuth ≠ some false) :
    handleMessage config env verify ws msg =
      .ok (entry.actionMethod ws msg.payload none) := by
  simp [handleMessage, hlook, hflag]

/-- Witness for the amended C2: flag `true`, valid token present — the
handler still receives an undefined user. -/
theorem handleMessage_nonfalse_flag_skips_auth_witness :
    handleMessage cfgTrue envSecret verifyTok () msgWithAuth =
      Except.ok ((none : Option String), some 7) := by
  exact handleMessage_nonfalse_flag_skips_auth cfgTrue envSecret verifyTok ()
    msgWithAuth entryTrue rfl (by decide)

/-- Counterexample to C2 as stated: an entry whose flag is exactly the
literal `false` does not skip validation — with no `auth` the dispatch
rejects with `Not Logged in` (the handler is not invoked with an
undefined user), and with an `auth` token and no secret configured the
dispatch surfaces the validator's configuration error, showing
validation was attempted. -/
theorem false_flag_skips_counterexample :
    handleMessage cfgFalse envSecret verifyTok () msgNoAuth =
        Except.error DispatchError.notLoggedIn ∧
      handleMessage cfgFalse envSecret verifyTok () msgNoAuth ≠
        Except.ok ((none : Option String), some 7) ∧
      handleMessage cfgFalse envNone verifyTok () msgWithAuth =
        Except.error (DispatchError.tokenError TokenError.noSecret) := by
  exact ⟨rfl, by decide, rfl⟩

/-- C9: for a non-`AUTH` envelope whose matched entry's flag is any
value other than the literal `false`, the dispatch result is the handler
applied to an undefined user and is identical under every verifier —
token validation is never consulted even when a well-formed valid `auth`
token is present. -/
theorem handleMessage_gate_open_ignores_token {WS P U R : Type}
    (config : MessageHandlerConfig WS P U R) (env : Env)
    (verify : String → String → Option (ValidToken U)) (ws : WS)
    (msg : Transport P) (entry : ConfigEntry WS P U R)
    (hlook : config (createMethodName msg.action msg.subAction) = some entry)
    (_hact : msg.action ≠ TransportAction.AUTH)
    (hflag : entry.noAuth ≠ some false) :
    handleMessage config env verify ws msg =
        .ok (entry.actionMethod ws msg.payload none) ∧
      ∀ verify' : String → String → Option (ValidToken U),
        handleMessage config env verify' ws msg =
          handleMessage config env verify ws msg := by
  constructor
  · simp [handleMessage, hlook, hflag]
  · intro v'
    simp [handleMessage, hlook, hflag]

/-- Witness for C9: flag unset, valid token in the envelope — the user
argument is still undefined. -/
theorem handleMessage_gate_open_ignores_token_witness :
    handleMessage cfgUnset envSecret verifyTok () msgWithAuth =
      Except.ok ((none : Option String), some 7) := by
  exact (handleMessage_gate_open_ignores_token cfgUnset envSecret verifyTok ()
    msgWithAuth entryUnset rfl (by decide) (by decide)).1

/-- C7: when dispatch takes the authentication branch (non-`AUTH`
action, flag exactly `false`, non-falsy `auth`) and `validateToken`
succeeds with claims `res`, the handler is invoked with exactly
`res.user`, the user claim of the decoded token. -/
theorem handleMessage_valid_token_user {WS P U R : Type}
    (config : MessageHandlerConfig WS P U R) (env : Env)
    (verify : String → String → Option (ValidToken U)) (ws : WS)
    (msg : Transport P) (entry : ConfigEntry WS P U R)
    (a : String) (res : ValidToken U)
    (hlook : config (createMethodName msg.action msg.subAction) = some entry)
    (hact : msg.action ≠ TransportAction.AUTH)
    (hflag : entry.noAuth = some false)
    (hauth : msg.auth = some a)
    (hne : a.isEmpty = false)
    (hval : validateToken env verify a = .ok res) :
    handleMessage config env verify ws msg =
      .ok (entry.actionMethod ws msg.payload res.user) := by
  simp [handleMessage, hlook, hact, hflag, hauth, hne, hval]

/-- Witness for C7: the verifier decodes user `alice`, and the handler
receives `alice`. -/
theorem handleMessage_valid_token_user_witness :
    handleMessage cfgFalse envSecret verifyTok () msgWithAuth =
      Except.ok (some "alice", some 7) := by
  exact handleMessage_valid_token_user cfgFalse envSecret verifyTok ()
    msgWithAuth entryFalse "tok" ⟨some "alice"⟩ rfl (by decide) rfl rfl rfl
    rfl

/-- C10: `validateToken` verifies only the second space-separated
segment of its input when that segment exists and is non-empty — the
first segment is discarded whether or not it is `Bearer`, later segments
are ignored (the result depends only on segment 1) — and verifies the
entire input string when there is no second segment or it is empty;
the last conjunct shows the verified string is exactly
`extractToken s`, with no further stripping. -/
theorem validateToken_second_segment (s : String) :
    (∀ h : 1 < (jsSplitOnSpace s).length,
        ((jsSplitOnSpace s)[1]).isEmpty = false →
          extractToken s = (jsSplitOnSpace s)[1]) ∧
      ((jsSplitOnSpace s).length ≤ 1 → extractToken s = s) ∧
      (∀ h : 1 < (jsSplitOnSpace s).length,
        ((jsSplitOnSpace s)[1]).isEmpty = true → extractToken s = s) ∧
      (∀ (U : Type) (env : Env)
          (verify : String → String → Option (ValidToken U)),
        validateToken env verify s =
          validateTokenNoStrip env verify (extractToken s)) := by
  refine ⟨?_, ?_, ?_, ?_⟩
  · intro h hne
    unfold extractToken
    rw [List.getElem?_eq_getElem h]
    simp [hne]
  · intro h
    unfold extractToken
    rw [List.getElem?_eq_none h]
  · intro h he
    unfold extractToken
    rw [List.getElem?_eq_getElem h]
    simp [he]
  · intro U env verify
    rfl

/-- Witness for C10: from `Bearer tok xx`, the middle segment is the
verified token. -/
theorem validateToken_second_segment_witness :
    extractToken "Bearer tok xx" =
      (jsSplitOnSpace "Bearer tok xx").get ⟨1, by decide⟩ :=
  (validateToken_second_segment "Bearer tok xx").1 (by decide) (by decide)
